import Mathlib

/-!
Verification of the soccer-session OCR server (`server.py`) against its
natural-language specification.

The development shallowly embeds the extraction-and-normalization pipeline:

* Python strings are modelled as Lean `String` (a wrapper over `List Char`,
  matching Python's sequence-of-codepoints view); the Python string methods
  used by the server (`lower`, `strip`, `replace`, `title`, `capitalize`,
  substring `in`, `find`, `rfind`, slicing) are re-implemented character by
  character below with `py`-prefixed names.
* The two outbound vision-model calls (the `anthropic` client) and the `re`
  library's `re.search` are external collaborators; they are modelled as
  oracle arguments (an `Except` result, respectively an `Option String`
  holding capture group 1), and every property is quantified over all
  possible oracle behaviours.
* `json.loads` is modelled by an executable JSON parser (`jsonParse`)
  over the same value type `Json` that the normalizers consume; Python's
  `dict.get(k)` (returning `None` both for a missing key and a stored JSON
  `null`) is modelled by `pyGet`, whose absent value is `Json.null`.
* Numbers produced by `int(...)` / `float(...)` are modelled as `Int`,
  respectively as exact rationals (`Rat`): the server never computes with
  the parsed values, it only stores them, so no floating-point rounding is
  observable.
-/

/-! ## Python-style character and string helpers -/

/-- The `\x7b` character (left curly brace). -/
def lbrace : Char := Char.ofNat 123

/-- The `\x7d` character (right curly brace). -/
def rbrace : Char := Char.ofNat 125

/-- The double-quote character. -/
def dquote : Char := Char.ofNat 34

/-- The backslash character. -/
def bslash : Char := Char.ofNat 92

/-- Python `str.isspace` characters used by `str.strip()` and `\s`
(ASCII range: space, tab, newline, carriage return, vertical tab, form feed). -/
def isPyWs (c : Char) : Bool :=
  c == ' ' || c == '\t' || c == '\n' || c == '\r' || c == Char.ofNat 11 || c == Char.ofNat 12

/-- Python `str.strip()`: remove whitespace from both ends. -/
def pyStrip (s : String) : String :=
  String.mk (((s.toList.dropWhile isPyWs).reverse.dropWhile isPyWs).reverse)

/-- Python `str.lower()` (ASCII case mapping; all inputs in the server are ASCII). -/
def pyLower (s : String) : String :=
  String.mk (s.toList.map Char.toLower)

/-- Python `str.startswith(pre)`. -/
def pyStartsWith (s pre : String) : Bool :=
  pre.toList.isPrefixOf s.toList

/-- One step of Python `str.replace`: replace every non-overlapping occurrence
of `pat` (assumed non-empty, as in the server) left to right.  The fuel is
structural only; each step consumes at least one character, so fuel equal to
the length of the text is never exhausted. -/
def pyReplaceAux (pat rep : List Char) : Nat → List Char → List Char
  | 0, cs => cs
  | _ + 1, [] => []
  | fuel + 1, c :: rest =>
    if pat.isPrefixOf (c :: rest) then
      rep ++ pyReplaceAux pat rep fuel (rest.drop (pat.length - 1))
    else
      c :: pyReplaceAux pat rep fuel rest

/-- Python `str.replace(pat, rep)` for a non-empty pattern. -/
def pyReplace (s pat rep : String) : String :=
  String.mk (pyReplaceAux pat.toList rep.toList s.toList.length s.toList)

/-- Python `needle in hay` (substring containment). -/
def strContains (hay needle : String) : Bool :=
  (List.range (hay.toList.length + 1)).any
    (fun i => needle.toList.isPrefixOf (hay.toList.drop i))

/-- Python `str.capitalize()`: first character uppercased, the rest lowercased. -/
def pyCapitalize (s : String) : String :=
  match s.toList with
  | [] => ""
  | c :: rest => String.mk (c.toUpper :: rest.map Char.toLower)

/-- Helper for Python `str.title()`: the Bool records whether the previous
character was alphabetic. -/
def pyTitleAux : Bool → List Char → List Char
  | _, [] => []
  | prevAlpha, c :: rest =>
    (if c.isAlpha then (if prevAlpha then c.toLower else c.toUpper) else c)
      :: pyTitleAux c.isAlpha rest

/-- Python `str.title()`: the first letter of every alphabetic run uppercased,
the other letters lowercased.  This is also the natural reading of the
specification's phrase, and is what the server's error messages use. -/
def pyTitle (s : String) : String :=
  String.mk (pyTitleAux false s.toList)

/-- Python `str.find(c)` for a single character: index of the first
occurrence, `none` standing for Python's `-1`. -/
def pyFindAux (c : Char) : List Char → Option Nat
  | [] => none
  | a :: rest => if a = c then some 0 else (pyFindAux c rest).map (· + 1)

/-- `text.find(c)` (character index of the first occurrence). -/
def pyFind (s : String) (c : Char) : Option Nat :=
  pyFindAux c s.toList

/-- `text.rfind(c)` (character index of the last occurrence). -/
def pyRfind (s : String) (c : Char) : Option Nat :=
  match pyFindAux c s.toList.reverse with
  | none => none
  | some j => some (s.toList.length - 1 - j)

/-- Python slice `s[i:j]` (character based, like Python's codepoint indexing). -/
def pySlice (s : String) (i j : Nat) : String :=
  String.mk ((s.toList.drop i).take (j - i))

/-- The character of `s` at index `i`, if any. -/
def charAt? (s : String) (i : Nat) : Option Char :=
  s.toList.get? i

/-! ## Python number conversion: `int(...)` and `float(...)` -/

/-- Numeric value of a list of decimal digits. -/
def natOfDigits (cs : List Char) : Nat :=
  cs.foldl (fun acc c => acc * 10 + (c.toNat - 48)) 0

/-- A non-empty digit group as accepted inside Python numeric literals:
digits with single underscores allowed only between digits.  Returns the
digits with the underscores removed. -/
def digitsU? : List Char → Option (List Char)
  | [] => none
  | [c] => if c.isDigit then some [c] else none
  | c :: d :: rest =>
    if c.isDigit then
      if d = '_' then
        (digitsU? rest).map (fun ds => c :: ds)
      else
        (digitsU? (d :: rest)).map (fun ds => c :: ds)
    else none

/-- A possibly-empty digit group: value and digit count. -/
def digitsUOpt? (cs : List Char) : Option (Nat × Nat) :=
  if cs.isEmpty then some (0, 0)
  else (digitsU? cs).map (fun ds => (natOfDigits ds, ds.length))

/-- Python `int(s)` on a decimal string: optional surrounding whitespace,
optional sign, non-empty digit group.  `none` models `ValueError`. -/
def pyIntOfString? (s : String) : Option Int :=
  let cs := (pyStrip s).toList
  match cs with
  | c :: rest =>
    if c = '+' then (digitsU? rest).map (fun ds => (natOfDigits ds : Int))
    else if c = '-' then (digitsU? rest).map (fun ds => -((natOfDigits ds : Nat) : Int))
    else (digitsU? cs).map (fun ds => (natOfDigits ds : Int))
  | [] => none

/-- Split a character list at the first exponent marker `e`/`E`. -/
def splitExp : List Char → List Char × Option (List Char)
  | [] => ([], none)
  | c :: rest =>
    if c = 'e' ∨ c = 'E' then ([], some rest)
    else
      let p := splitExp rest
      (c :: p.1, p.2)

/-- Split a character list at the first dot. -/
def splitDot : List Char → List Char × Option (List Char)
  | [] => ([], none)
  | c :: rest =>
    if c = '.' then ([], some rest)
    else
      let p := splitDot rest
      (c :: p.1, p.2)

/-- Python `float(s)` on a decimal string, as an exact rational:
optional whitespace and sign, then `digits [. digits] [exponent]` with at
least one mantissa digit (the special values `inf`/`nan`, which contain no
dot, can never reach the one call site that is guarded by `"." in s`).
`none` models `ValueError`. -/
def pyFloatOfString? (s : String) : Option Rat :=
  let cs := (pyStrip s).toList
  let signed : Int × List Char :=
    match cs with
    | c :: rest =>
      if c = '+' then (1, rest) else if c = '-' then (-1, rest) else (1, cs)
    | [] => (1, [])
  let sign := signed.1
  let body := signed.2
  let mant := splitExp body
  let ip := splitDot mant.1
  match digitsUOpt? ip.1 with
  | none => none
  | some (iv, ic) =>
    let fracParsed : Option (Nat × Nat) :=
      match ip.2 with
      | none => some (0, 0)
      | some f => digitsUOpt? f
    match fracParsed with
    | none => none
    | some (fv, fc) =>
      if ic + fc = 0 then none
      else
        let expParsed : Option Int :=
          match mant.2 with
          | none => some 0
          | some ecs =>
            match ecs with
            | e :: er =>
              if e = '+' then (digitsU? er).map (fun ds => (natOfDigits ds : Int))
              else if e = '-' then (digitsU? er).map (fun ds => -((natOfDigits ds : Nat) : Int))
              else (digitsU? ecs).map (fun ds => (natOfDigits ds : Int))
            | [] => none
        match expParsed with
        | none => none
        | some e =>
          let mantNum : Nat := iv * 10 ^ fc + fv
          if 0 ≤ e then
            some (mkRat (sign * ((mantNum * 10 ^ e.toNat : Nat) : Int)) (10 ^ fc))
          else
            some (mkRat (sign * (mantNum : Int)) (10 ^ fc * 10 ^ (-e).toNat))

/-! ## Field Extractor (`extract_number`, `extract_value`)

`re.search` is an external library call; it is modelled by an oracle of type
`SearchOracle` that, for a pattern and a text, returns the contents of
capture group 1 when the pattern matches (all the server's patterns have a
mandatory group 1) and `none` when it does not match. -/

/-- The result of a Python number extraction: `int(...)` or `float(...)`. -/
inductive PyNum where
  | int (n : Int)
  | float (q : Rat)
deriving DecidableEq

/-- Oracle model of `re.search(pattern, text, re.IGNORECASE)`, yielding
`match.group(1)`. -/
def SearchOracle := String → String → Option String

/-- `extract_number(text, pattern)` from `server.py`: if the pattern matches
and the captured group contains a dot, `float(...)`, otherwise `int(...)`;
a `ValueError` from either conversion yields `None`; no match yields `None`. -/
def extract_number (search : SearchOracle) (text pat : String) : Option PyNum :=
  match search pat text with
  | none => none
  | some g =>
    if g.toList.contains '.' then (pyFloatOfString? g).map PyNum.float
    else (pyIntOfString? g).map PyNum.int

/-- `extract_value(text, pattern, default)` from `server.py`: the captured
group passed through `str.capitalize()`, or the caller-supplied default when
the pattern does not match. -/
def extract_value (search : SearchOracle) (text pat : String) (dflt : Option String) :
    Option String :=
  match search pat text with
  | some g => some (pyCapitalize g)
  | none => dflt

/-! ## JSON values and `json.loads` -/

/-- A JSON value as produced by `json.loads`: integral numbers become Python
`int` (`intNum`), numbers with a fraction or exponent become `float`
(`floatNum`, exact rational). -/
inductive Json where
  | null
  | bool (b : Bool)
  | intNum (n : Int)
  | floatNum (q : Rat)
  | str (s : String)
  | arr (elems : List Json)
  | obj (fields : List (String × Json))

/-- JSON insignificant whitespace. -/
def jsonWs (c : Char) : Bool :=
  c == ' ' || c == '\t' || c == '\n' || c == '\r'

/-- Skip JSON whitespace. -/
def skipWs (cs : List Char) : List Char :=
  cs.dropWhile jsonWs

/-- Value of a hexadecimal digit. -/
def hexVal? (c : Char) : Option Nat :=
  if c.isDigit then some (c.toNat - 48)
  else if 'a' ≤ c ∧ c ≤ 'f' then some (c.toNat - 87)
  else if 'A' ≤ c ∧ c ≤ 'F' then some (c.toNat - 55)
  else none

/-- Parse the remainder of a JSON string literal (the opening quote already
consumed), handling the escape sequences of RFC 8259. -/
def parseStringAux : List Char → List Char → Option (String × List Char)
  | _, [] => none
  | acc, c :: rest =>
    if c = dquote then some (String.mk acc.reverse, rest)
    else if c = bslash then
      match rest with
      | [] => none
      | e :: r2 =>
        if e = dquote then parseStringAux (dquote :: acc) r2
        else if e = bslash then parseStringAux (bslash :: acc) r2
        else if e = '/' then parseStringAux ('/' :: acc) r2
        else if e = 'b' then parseStringAux (Char.ofNat 8 :: acc) r2
        else if e = 'f' then parseStringAux (Char.ofNat 12 :: acc) r2
        else if e = 'n' then parseStringAux ('\n' :: acc) r2
        else if e = 'r' then parseStringAux ('\r' :: acc) r2
        else if e = 't' then parseStringAux ('\t' :: acc) r2
        else if e = 'u' then
          match r2 with
          | h1 :: h2 :: h3 :: h4 :: r3 =>
            match hexVal? h1, hexVal? h2, hexVal? h3, hexVal? h4 with
            | some a, some b, some c2, some d2 =>
              parseStringAux (Char.ofNat (((a * 16 + b) * 16 + c2) * 16 + d2) :: acc) r3
            | _, _, _, _ => none
          | _ => none
        else none
    else parseStringAux (c :: acc) rest

/-- Parse an optional JSON exponent part: `some (none, cs)` when no
`e`/`E` is present, `some (some v, rest)` for a well-formed exponent,
`none` for a malformed one. -/
def parseExpPart (cs : List Char) : Option (Option Int × List Char) :=
  match cs with
  | c :: rest =>
    if c = 'e' ∨ c = 'E' then
      let signed : Int × List Char :=
        match rest with
        | s :: r3 =>
          if s = '+' then (1, r3) else if s = '-' then (-1, r3) else (1, rest)
        | [] => (1, rest)
      let eds := signed.2.takeWhile Char.isDigit
      if eds.isEmpty then none
      else some (some (signed.1 * (natOfDigits eds : Int)), signed.2.drop eds.length)
    else some (none, cs)
  | [] => some (none, cs)

/-- Parse a JSON number (leading sign included, strict grammar: no leading
zeros, a fraction needs at least one digit, an exponent marker needs
digits). -/
def parseNumber (cs : List Char) : Option (Json × List Char) :=
  let neg := (cs.headD ' ') = '-'
  let sign : Int := if neg then -1 else 1
  let cs1 := if neg then cs.drop 1 else cs
  let ds := cs1.takeWhile Char.isDigit
  if ds.isEmpty then none
  else if ds.length > 1 ∧ ds.headD '0' = '0' then none
  else
    let cs2 := cs1.drop ds.length
    let intVal := natOfDigits ds
    let fracRes : Option (Option (Nat × Nat) × List Char) :=
      match cs2 with
      | c :: cs3 =>
        if c = '.' then
          let fs := cs3.takeWhile Char.isDigit
          if fs.isEmpty then none
          else some (some (natOfDigits fs, fs.length), cs3.drop fs.length)
        else some (none, cs2)
      | [] => some (none, cs2)
    match fracRes with
    | none => none
    | some (frac, cs4) =>
      match parseExpPart cs4 with
      | none => none
      | some (expo, cs5) =>
        match frac, expo with
        | none, none => some (Json.intNum (sign * (intVal : Int)), cs5)
        | _, _ =>
          let fv : Nat := (frac.map Prod.fst).getD 0
          let fc : Nat := (frac.map Prod.snd).getD 0
          let e : Int := expo.getD 0
          let mantNum : Nat := intVal * 10 ^ fc + fv
          let q : Rat :=
            if 0 ≤ e then mkRat (sign * ((mantNum * 10 ^ e.toNat : Nat) : Int)) (10 ^ fc)
            else mkRat (sign * (mantNum : Int)) (10 ^ fc * 10 ^ (-e).toNat)
          some (Json.floatNum q, cs5)

mutual

/-- Parse one JSON value (fuelled mutual recursive descent). -/
def parseValue : Nat → List Char → Option (Json × List Char)
  | 0, _ => none
  | fuel + 1, cs =>
    match skipWs cs with
    | [] => none
    | c :: rest =>
      if c = lbrace then parseMembers fuel rest
      else if c = '[' then parseElems fuel rest
      else if c = dquote then (parseStringAux [] rest).map (fun p => (Json.str p.1, p.2))
      else if c = 't' then
        match rest with
        | 'r' :: 'u' :: 'e' :: r2 => some (Json.bool true, r2)
        | _ => none
      else if c = 'f' then
        match rest with
        | 'a' :: 'l' :: 's' :: 'e' :: r2 => some (Json.bool false, r2)
        | _ => none
      else if c = 'n' then
        match rest with
        | 'u' :: 'l' :: 'l' :: r2 => some (Json.null, r2)
        | _ => none
      else parseNumber (c :: rest)

/-- Parse the members of a JSON object (opening brace already consumed). -/
def parseMembers : Nat → List Char → Option (Json × List Char)
  | 0, _ => none
  | fuel + 1, cs =>
    match skipWs cs with
    | [] => none
    | c :: rest =>
      if c = rbrace then some (Json.obj [], rest)
      else
        match parseMember fuel (c :: rest) with
        | some (kv, r2) => parseMembersLoop fuel [kv] r2
        | none => none

/-- Parse a single `"key" : value` member. -/
def parseMember : Nat → List Char → Option ((String × Json) × List Char)
  | 0, _ => none
  | fuel + 1, cs =>
    match skipWs cs with
    | c :: rest =>
      if c = dquote then
        match parseStringAux [] rest with
        | some (k, r2) =>
          match skipWs r2 with
          | c2 :: r3 =>
            if c2 = ':' then (parseValue fuel r3).map (fun p => ((k, p.1), p.2))
            else none
          | [] => none
        | none => none
      else none
    | [] => none

/-- Parse `, "key" : value` continuations and the closing brace. -/
def parseMembersLoop : Nat → List (String × Json) → List Char → Option (Json × List Char)
  | 0, _, _ => none
  | fuel + 1, acc, cs =>
    match skipWs cs with
    | c :: rest =>
      if c = rbrace then some (Json.obj acc.reverse, rest)
      else if c = ',' then
        match parseMember fuel rest with
        | some (kv, r2) => parseMembersLoop fuel (kv :: acc) r2
        | none => none
      else none
    | [] => none

/-- Parse the elements of a JSON array (opening bracket already consumed). -/
def parseElems : Nat → List Char → Option (Json × List Char)
  | 0, _ => none
  | fuel + 1, cs =>
    match skipWs cs with
    | [] => none
    | c :: rest =>
      if c = ']' then some (Json.arr [], rest)
      else
        match parseValue fuel (c :: rest) with
        | some (v, r2) => parseElemsLoop fuel [v] r2
        | none => none

/-- Parse `, value` continuations and the closing bracket. -/
def parseElemsLoop : Nat → List Json → List Char → Option (Json × List Char)
  | 0, _, _ => none
  | fuel + 1, acc, cs =>
    match skipWs cs with
    | c :: rest =>
      if c = ']' then some (Json.arr acc.reverse, rest)
      else if c = ',' then
        match parseValue fuel rest with
        | some (v, r2) => parseElemsLoop fuel (v :: acc) r2
        | none => none
      else none
    | [] => none

end

/-- `json.loads`: parse one JSON document; trailing non-whitespace is an
error ("Extra data"), like Python's strict decoder. -/
def jsonParse (s : String) : Option Json :=
  match parseValue (2 * s.toList.length + 2) s.toList with
  | some (j, rest) => if (skipWs rest).isEmpty then some j else none
  | none => none

/-! ## Canonical records (Result Normalizer)

A parsed JSON object is an association list `List (String × Json)` (Python
dicts built from JSON keep the last binding of a duplicated key, hence the
last-wins lookup).  The nested output record is a `JTree`. -/

/-- Python `data.get(k)`: the last binding of `k`, or `None` (`Json.null`)
when the key is missing — note that a stored JSON `null` and a missing key
are indistinguishable in Python, exactly as here. -/
def pyGet (d : List (String × Json)) (k : String) : Json :=
  match (d.filter (fun p => p.1 == k)).getLast? with
  | some p => p.2
  | none => Json.null

/-- A nested record value: leaves are Python values, nodes are dicts. -/
inductive JTree where
  | val (j : Json)
  | obj (fields : List (String × JTree))

/-- The key structure (shape) of a record. -/
inductive KeyShape where
  | leaf
  | node (children : List (String × KeyShape))

/-- The shape of a `JTree`, explored to a given depth (all the server's
records have depth at most 4, so any depth ≥ 4 is exact). -/
def shapeToDepth : Nat → JTree → KeyShape
  | 0, _ => KeyShape.leaf
  | _ + 1, JTree.val _ => KeyShape.leaf
  | n + 1, JTree.obj l => KeyShape.node (l.map (fun p => (p.1, shapeToDepth n p.2)))

/-- Look a leaf value up by its path of keys. -/
def lookupPath : List String → JTree → Option Json
  | [], JTree.val j => some j
  | [], JTree.obj _ => none
  | _ :: _, JTree.val _ => none
  | k :: rest, JTree.obj l =>
    match l.find? (fun p => p.1 == k) with
    | some p => lookupPath rest p.2
    | none => none

/-- `format_match_result(data)` from `server.py`: flat JSON keys to the
nested Match structure. -/
def format_match_result (data : List (String × Json)) : JTree :=
  JTree.obj [
    ("session", JTree.obj [
      ("session_name", JTree.val (pyGet data "session_name")),
      ("date", JTree.val (pyGet data "date")),
      ("duration_minutes", JTree.val (pyGet data "duration_minutes")),
      ("training_type", JTree.val (Json.str "Match"))]),
    ("overview", JTree.obj [
      ("position", JTree.val (pyGet data "position")),
      ("goals", JTree.val (pyGet data "goals")),
      ("assists", JTree.val (pyGet data "assists")),
      ("athlete_team_score", JTree.val (pyGet data "athlete_team_score")),
      ("opposing_team_score", JTree.val (pyGet data "opposing_team_score")),
      ("opposing_team_name", JTree.val (pyGet data "opposing_team_name"))]),
    ("skills", JTree.obj [
      ("two_footed_score", JTree.val (pyGet data "two_footed_score")),
      ("dribbling_score", JTree.val (pyGet data "dribbling_score")),
      ("first_touch_score", JTree.val (pyGet data "first_touch_score")),
      ("agility_score", JTree.val (pyGet data "agility_score")),
      ("speed_score", JTree.val (pyGet data "speed_score")),
      ("power_score", JTree.val (pyGet data "power_score"))]),
    ("highlights", JTree.obj [
      ("work_rate_yd_per_min", JTree.val (pyGet data "work_rate")),
      ("ball_possessions", JTree.val (pyGet data "ball_possessions")),
      ("total_distance_mi", JTree.val (pyGet data "total_distance")),
      ("sprint_distance_yd", JTree.val (pyGet data "sprint_distance")),
      ("top_speed_mph", JTree.val (pyGet data "top_speed")),
      ("kicking_power_mph", JTree.val (pyGet data "kicking_power"))]),
    ("two_footed", JTree.obj [
      ("left_foot_touches", JTree.val (pyGet data "left_touches")),
      ("left_foot_touches_pct", JTree.val (pyGet data "left_touches_pct")),
      ("right_foot_touches", JTree.val (pyGet data "right_touches")),
      ("right_foot_touches_pct", JTree.val (pyGet data "right_touches_pct")),
      ("left_foot_releases", JTree.val (pyGet data "left_releases")),
      ("left_foot_releases_pct", JTree.val (pyGet data "left_releases_pct")),
      ("right_foot_releases", JTree.val (pyGet data "right_releases")),
      ("right_foot_releases_pct", JTree.val (pyGet data "right_releases_pct")),
      ("left_foot_receives", JTree.val (pyGet data "left_receives")),
      ("left_foot_receives_pct", JTree.val (pyGet data "left_receives_pct")),
      ("right_foot_receives", JTree.val (pyGet data "right_receives")),
      ("right_foot_receives_pct", JTree.val (pyGet data "right_receives_pct")),
      ("left_foot_kicking_power_mph", JTree.val (pyGet data "left_kicking_power")),
      ("right_foot_kicking_power_mph", JTree.val (pyGet data "right_kicking_power"))]),
    ("dribbling", JTree.obj [
      ("distance_with_ball_yd", JTree.val (pyGet data "distance_with_ball")),
      ("top_speed_with_ball_mph", JTree.val (pyGet data "top_speed_with_ball")),
      ("intense_turns_with_ball", JTree.val (pyGet data "intense_turns_with_ball"))]),
    ("first_touch", JTree.obj [
      ("ball_possessions", JTree.obj [
        ("total", JTree.val (pyGet data "ball_possessions")),
        ("one_touch", JTree.val (pyGet data "one_touch_poss")),
        ("multiple_touch", JTree.val (pyGet data "multiple_touch_poss")),
        ("total_duration_sec", JTree.val (pyGet data "total_duration_sec"))]),
      ("ball_release_footzone", JTree.obj [
        ("laces", JTree.val (pyGet data "laces")),
        ("inside", JTree.val (pyGet data "inside")),
        ("other", JTree.val (pyGet data "other_footzone"))])]),
    ("agility", JTree.obj [
      ("left_turns", JTree.val (pyGet data "left_turns")),
      ("back_turns", JTree.val (pyGet data "back_turns")),
      ("right_turns", JTree.val (pyGet data "right_turns")),
      ("intense_turns", JTree.val (pyGet data "intense_turns")),
      ("avg_turn_entry_speed_mph", JTree.val (pyGet data "avg_turn_entry")),
      ("avg_turn_exit_speed_mph", JTree.val (pyGet data "avg_turn_exit"))]),
    ("speed", JTree.obj [
      ("top_speed_mph", JTree.val (pyGet data "top_speed")),
      ("sprints", JTree.val (pyGet data "num_sprints"))]),
    ("power", JTree.obj [
      ("first_step_accelerations", JTree.val (pyGet data "first_step_accel")),
      ("intense_accelerations", JTree.val (pyGet data "intense_accel"))])]

/-- `format_ball_work_result(data)` from `server.py`. -/
def format_ball_work_result (data : List (String × Json)) : JTree :=
  JTree.obj [
    ("session", JTree.obj [
      ("session_name", JTree.val (pyGet data "session_name")),
      ("date", JTree.val (pyGet data "date")),
      ("duration_minutes", JTree.val (pyGet data "duration_minutes")),
      ("training_type", JTree.val (pyGet data "training_type")),
      ("intensity", JTree.val (pyGet data "intensity"))]),
    ("highlights", JTree.obj [
      ("ball_touches", JTree.val (pyGet data "ball_touches")),
      ("total_distance_miles", JTree.val (pyGet data "total_distance")),
      ("sprint_distance_yards", JTree.val (pyGet data "sprint_distance")),
      ("accl_decl", JTree.val (pyGet data "accelerations")),
      ("kicking_power_mph", JTree.val (pyGet data "kicking_power"))]),
    ("two_footed", JTree.obj [
      ("left_foot_touches", JTree.val (pyGet data "left_touches")),
      ("left_foot_touches_percentage", JTree.val (pyGet data "left_pct")),
      ("right_foot_touches", JTree.val (pyGet data "right_touches")),
      ("right_foot_touches_percentage", JTree.val (pyGet data "right_pct")),
      ("left_foot_releases", JTree.val (pyGet data "left_releases")),
      ("left_foot_releases_percentage", JTree.val (pyGet data "left_release_pct")),
      ("right_foot_releases", JTree.val (pyGet data "right_releases")),
      ("right_foot_releases_percentage", JTree.val (pyGet data "right_release_pct")),
      ("left_foot_kicking_power_mph", JTree.val (pyGet data "left_kicking_power")),
      ("right_foot_kicking_power_mph", JTree.val (pyGet data "right_kicking_power"))]),
    ("speed", JTree.obj [
      ("top_speed_mph", JTree.val (pyGet data "top_speed")),
      ("sprints", JTree.val (pyGet data "num_sprints"))]),
    ("agility", JTree.obj [
      ("left_turns", JTree.val (pyGet data "left_turns")),
      ("back_turns", JTree.val (pyGet data "back_turns")),
      ("right_turns", JTree.val (pyGet data "right_turns")),
      ("intense_turns", JTree.val (pyGet data "intense_turns")),
      ("average_turn_entry_speed_mph", JTree.val (pyGet data "avg_turn_entry")),
      ("average_turn_exit_speed_mph", JTree.val (pyGet data "avg_turn_exit"))])]

/-- `format_speed_agility_result(data)` from `server.py`. -/
def format_speed_agility_result (data : List (String × Json)) : JTree :=
  JTree.obj [
    ("session", JTree.obj [
      ("session_name", JTree.val (pyGet data "session_name")),
      ("date", JTree.val (pyGet data "date")),
      ("duration_minutes", JTree.val (pyGet data "duration_minutes")),
      ("training_type", JTree.val (pyGet data "training_type")),
      ("intensity", JTree.val (pyGet data "intensity"))]),
    ("highlights", JTree.obj [
      ("total_distance_miles", JTree.val (pyGet data "total_distance")),
      ("sprint_distance_yards", JTree.val (pyGet data "sprint_distance")),
      ("accl_decl", JTree.val (pyGet data "accelerations"))]),
    ("speed", JTree.obj [
      ("top_speed_mph", JTree.val (pyGet data "top_speed")),
      ("sprints", JTree.val (pyGet data "num_sprints"))]),
    ("agility", JTree.obj [
      ("left_turns", JTree.val (pyGet data "left_turns")),
      ("back_turns", JTree.val (pyGet data "back_turns")),
      ("right_turns", JTree.val (pyGet data "right_turns")),
      ("intense_turns", JTree.val (pyGet data "intense_turns")),
      ("average_turn_entry_speed_mph", JTree.val (pyGet data "avg_turn_entry")),
      ("average_turn_exit_speed_mph", JTree.val (pyGet data "avg_turn_exit"))])]

/-- The declared schema of a Match canonical record. -/
def matchSchema : KeyShape :=
  KeyShape.node [
    ("session", KeyShape.node [
      ("session_name", KeyShape.leaf), ("date", KeyShape.leaf),
      ("duration_minutes", KeyShape.leaf), ("training_type", KeyShape.leaf)]),
    ("overview", KeyShape.node [
      ("position", KeyShape.leaf), ("goals", KeyShape.leaf), ("assists", KeyShape.leaf),
      ("athlete_team_score", KeyShape.leaf), ("opposing_team_score", KeyShape.leaf),
      ("opposing_team_name", KeyShape.leaf)]),
    ("skills", KeyShape.node [
      ("two_footed_score", KeyShape.leaf), ("dribbling_score", KeyShape.leaf),
      ("first_touch_score", KeyShape.leaf), ("agility_score", KeyShape.leaf),
      ("speed_score", KeyShape.leaf), ("power_score", KeyShape.leaf)]),
    ("highlights", KeyShape.node [
      ("work_rate_yd_per_min", KeyShape.leaf), ("ball_possessions", KeyShape.leaf),
      ("total_distance_mi", KeyShape.leaf), ("sprint_distance_yd", KeyShape.leaf),
      ("top_speed_mph", KeyShape.leaf), ("kicking_power_mph", KeyShape.leaf)]),
    ("two_footed", KeyShape.node [
      ("left_foot_touches", KeyShape.leaf), ("left_foot_touches_pct", KeyShape.leaf),
      ("right_foot_touches", KeyShape.leaf), ("right_foot_touches_pct", KeyShape.leaf),
      ("left_foot_releases", KeyShape.leaf), ("left_foot_releases_pct", KeyShape.leaf),
      ("right_foot_releases", KeyShape.leaf), ("right_foot_releases_pct", KeyShape.leaf),
      ("left_foot_receives", KeyShape.leaf), ("left_foot_receives_pct", KeyShape.leaf),
      ("right_foot_receives", KeyShape.leaf), ("right_foot_receives_pct", KeyShape.leaf),
      ("left_foot_kicking_power_mph", KeyShape.leaf),
      ("right_foot_kicking_power_mph", KeyShape.leaf)]),
    ("dribbling", KeyShape.node [
      ("distance_with_ball_yd", KeyShape.leaf), ("top_speed_with_ball_mph", KeyShape.leaf),
      ("intense_turns_with_ball", KeyShape.leaf)]),
    ("first_touch", KeyShape.node [
      ("ball_possessions", KeyShape.node [
        ("total", KeyShape.leaf), ("one_touch", KeyShape.leaf),
        ("multiple_touch", KeyShape.leaf), ("total_duration_sec", KeyShape.leaf)]),
      ("ball_release_footzone", KeyShape.node [
        ("laces", KeyShape.leaf), ("inside", KeyShape.leaf), ("other", KeyShape.leaf)])]),
    ("agility", KeyShape.node [
      ("left_turns", KeyShape.leaf), ("back_turns", KeyShape.leaf),
      ("right_turns", KeyShape.leaf), ("intense_turns", KeyShape.leaf),
      ("avg_turn_entry_speed_mph", KeyShape.leaf), ("avg_turn_exit_speed_mph", KeyShape.leaf)]),
    ("speed", KeyShape.node [("top_speed_mph", KeyShape.leaf), ("sprints", KeyShape.leaf)]),
    ("power", KeyShape.node [
      ("first_step_accelerations", KeyShape.leaf), ("intense_accelerations", KeyShape.leaf)])]

/-- The declared schema of a Ball Work canonical record. -/
def ballWorkSchema : KeyShape :=
  KeyShape.node [
    ("session", KeyShape.node [
      ("session_name", KeyShape.leaf), ("date", KeyShape.leaf),
      ("duration_minutes", KeyShape.leaf), ("training_type", KeyShape.leaf),
      ("intensity", KeyShape.leaf)]),
    ("highlights", KeyShape.node [
      ("ball_touches", KeyShape.leaf), ("total_distance_miles", KeyShape.leaf),
      ("sprint_distance_yards", KeyShape.leaf), ("accl_decl", KeyShape.leaf),
      ("kicking_power_mph", KeyShape.leaf)]),
    ("two_footed", KeyShape.node [
      ("left_foot_touches", KeyShape.leaf), ("left_foot_touches_percentage", KeyShape.leaf),
      ("right_foot_touches", KeyShape.leaf), ("right_foot_touches_percentage", KeyShape.leaf),
      ("left_foot_releases", KeyShape.leaf), ("left_foot_releases_percentage", KeyShape.leaf),
      ("right_foot_releases", KeyShape.leaf), ("right_foot_releases_percentage", KeyShape.leaf),
      ("left_foot_kicking_power_mph", KeyShape.leaf),
      ("right_foot_kicking_power_mph", KeyShape.leaf)]),
    ("speed", KeyShape.node [("top_speed_mph", KeyShape.leaf), ("sprints", KeyShape.leaf)]),
    ("agility", KeyShape.node [
      ("left_turns", KeyShape.leaf), ("back_turns", KeyShape.leaf),
      ("right_turns", KeyShape.leaf), ("intense_turns", KeyShape.leaf),
      ("average_turn_entry_speed_mph", KeyShape.leaf),
      ("average_turn_exit_speed_mph", KeyShape.leaf)])]

/-- The declared schema of a Speed & Agility canonical record. -/
def speedAgilitySchema : KeyShape :=
  KeyShape.node [
    ("session", KeyShape.node [
      ("session_name", KeyShape.leaf), ("date", KeyShape.leaf),
      ("duration_minutes", KeyShape.leaf), ("training_type", KeyShape.leaf),
      ("intensity", KeyShape.leaf)]),
    ("highlights", KeyShape.node [
      ("total_distance_miles", KeyShape.leaf), ("sprint_distance_yards", KeyShape.leaf),
      ("accl_decl", KeyShape.leaf)]),
    ("speed", KeyShape.node [("top_speed_mph", KeyShape.leaf), ("sprints", KeyShape.leaf)]),
    ("agility", KeyShape.node [
      ("left_turns", KeyShape.leaf), ("back_turns", KeyShape.leaf),
      ("right_turns", KeyShape.leaf), ("intense_turns", KeyShape.leaf),
      ("average_turn_entry_speed_mph", KeyShape.leaf),
      ("average_turn_exit_speed_mph", KeyShape.leaf)])]

/-- Canonical path → raw JSON source key, one entry per Match field that is
populated from the input object (`training_type` is the constant `"Match"`). -/
def matchFieldMap : List (List String × String) := [
  (["session", "session_name"], "session_name"),
  (["session", "date"], "date"),
  (["session", "duration_minutes"], "duration_minutes"),
  (["overview", "position"], "position"),
  (["overview", "goals"], "goals"),
  (["overview", "assists"], "assists"),
  (["overview", "athlete_team_score"], "athlete_team_score"),
  (["overview", "opposing_team_score"], "opposing_team_score"),
  (["overview", "opposing_team_name"], "opposing_team_name"),
  (["skills", "two_footed_score"], "two_footed_score"),
  (["skills", "dribbling_score"], "dribbling_score"),
  (["skills", "first_touch_score"], "first_touch_score"),
  (["skills", "agility_score"], "agility_score"),
  (["skills", "speed_score"], "speed_score"),
  (["skills", "power_score"], "power_score"),
  (["highlights", "work_rate_yd_per_min"], "work_rate"),
  (["highlights", "ball_possessions"], "ball_possessions"),
  (["highlights", "total_distance_mi"], "total_distance"),
  (["highlights", "sprint_distance_yd"], "sprint_distance"),
  (["highlights", "top_speed_mph"], "top_speed"),
  (["highlights", "kicking_power_mph"], "kicking_power"),
  (["two_footed", "left_foot_touches"], "left_touches"),
  (["two_footed", "left_foot_touches_pct"], "left_touches_pct"),
  (["two_footed", "right_foot_touches"], "right_touches"),
  (["two_footed", "right_foot_touches_pct"], "right_touches_pct"),
  (["two_footed", "left_foot_releases"], "left_releases"),
  (["two_footed", "left_foot_releases_pct"], "left_releases_pct"),
  (["two_footed", "right_foot_releases"], "right_releases"),
  (["two_footed", "right_foot_releases_pct"], "right_releases_pct"),
  (["two_footed", "left_foot_receives"], "left_receives"),
  (["two_footed", "left_foot_receives_pct"], "left_receives_pct"),
  (["two_footed", "right_foot_receives"], "right_receives"),
  (["two_footed", "right_foot_receives_pct"], "right_receives_pct"),
  (["two_footed", "left_foot_kicking_power_mph"], "left_kicking_power"),
  (["two_footed", "right_foot_kicking_power_mph"], "right_kicking_power"),
  (["dribbling", "distance_with_ball_yd"], "distance_with_ball"),
  (["dribbling", "top_speed_with_ball_mph"], "top_speed_with_ball"),
  (["dribbling", "intense_turns_with_ball"], "intense_turns_with_ball"),
  (["first_touch", "ball_possessions", "total"], "ball_possessions"),
  (["first_touch", "ball_possessions", "one_touch"], "one_touch_poss"),
  (["first_touch", "ball_possessions", "multiple_touch"], "multiple_touch_poss"),
  (["first_touch", "ball_possessions", "total_duration_sec"], "total_duration_sec"),
  (["first_touch", "ball_release_footzone", "laces"], "laces"),
  (["first_touch", "ball_release_footzone", "inside"], "inside"),
  (["first_touch", "ball_release_footzone", "other"], "other_footzone"),
  (["agility", "left_turns"], "left_turns"),
  (["agility", "back_turns"], "back_turns"),
  (["agility", "right_turns"], "right_turns"),
  (["agility", "intense_turns"], "intense_turns"),
  (["agility", "avg_turn_entry_speed_mph"], "avg_turn_entry"),
  (["agility", "avg_turn_exit_speed_mph"], "avg_turn_exit"),
  (["speed", "top_speed_mph"], "top_speed"),
  (["speed", "sprints"], "num_sprints"),
  (["power", "first_step_accelerations"], "first_step_accel"),
  (["power", "intense_accelerations"], "intense_accel")]

/-- Canonical path → raw JSON source key for every Ball Work field. -/
def ballWorkFieldMap : List (List String × String) := [
  (["session", "session_name"], "session_name"),
  (["session", "date"], "date"),
  (["session", "duration_minutes"], "duration_minutes"),
  (["session", "training_type"], "training_type"),
  (["session", "intensity"], "intensity"),
  (["highlights", "ball_touches"], "ball_touches"),
  (["highlights", "total_distance_miles"], "total_distance"),
  (["highlights", "sprint_distance_yards"], "sprint_distance"),
  (["highlights", "accl_decl"], "accelerations"),
  (["highlights", "kicking_power_mph"], "kicking_power"),
  (["two_footed", "left_foot_touches"], "left_touches"),
  (["two_footed", "left_foot_touches_percentage"], "left_pct"),
  (["two_footed", "right_foot_touches"], "right_touches"),
  (["two_footed", "right_foot_touches_percentage"], "right_pct"),
  (["two_footed", "left_foot_releases"], "left_releases"),
  (["two_footed", "left_foot_releases_percentage"], "left_release_pct"),
  (["two_footed", "right_foot_releases"], "right_releases"),
  (["two_footed", "right_foot_releases_percentage"], "right_release_pct"),
  (["two_footed", "left_foot_kicking_power_mph"], "left_kicking_power"),
  (["two_footed", "right_foot_kicking_power_mph"], "right_kicking_power"),
  (["speed", "top_speed_mph"], "top_speed"),
  (["speed", "sprints"], "num_sprints"),
  (["agility", "left_turns"], "left_turns"),
  (["agility", "back_turns"], "back_turns"),
  (["agility", "right_turns"], "right_turns"),
  (["agility", "intense_turns"], "intense_turns"),
  (["agility", "average_turn_entry_speed_mph"], "avg_turn_entry"),
  (["agility", "average_turn_exit_speed_mph"], "avg_turn_exit")]

/-- Canonical path → raw JSON source key for every Speed & Agility field. -/
def speedAgilityFieldMap : List (List String × String) := [
  (["session", "session_name"], "session_name"),
  (["session", "date"], "date"),
  (["session", "duration_minutes"], "duration_minutes"),
  (["session", "training_type"], "training_type"),
  (["session", "intensity"], "intensity"),
  (["highlights", "total_distance_miles"], "total_distance"),
  (["highlights", "sprint_distance_yards"], "sprint_distance"),
  (["highlights", "accl_decl"], "accelerations"),
  (["speed", "top_speed_mph"], "top_speed"),
  (["speed", "sprints"], "num_sprints"),
  (["agility", "left_turns"], "left_turns"),
  (["agility", "back_turns"], "back_turns"),
  (["agility", "right_turns"], "right_turns"),
  (["agility", "intense_turns"], "intense_turns"),
  (["agility", "average_turn_entry_speed_mph"], "avg_turn_entry"),
  (["agility", "average_turn_exit_speed_mph"], "avg_turn_exit")]

/-! ## Session-Type Classifier (`validate_session_type`) -/

/-- `response.replace("uncertain:", "").strip().lower()` — the raw detected
label before substring normalization (lines 144 of `server.py`; the
`replace` is case-sensitive while the `startswith` test below is done on the
lowercased response, exactly as in the source). -/
def rawDetected (response : String) : String :=
  pyLower (pyStrip (pyReplace response "uncertain:" ""))

/-- The label normalization of `validate_session_type` (lines 144–152):
substring match on "match", then "ball work", then "speed" and "agility";
a response matching none of the three keeps the raw lowercased label. -/
def normalizeDetected (response : String) : String :=
  let d := rawDetected response
  if strContains d "match" then "match"
  else if strContains d "ball work" then "ball_work"
  else if strContains d "speed" && strContains d "agility" then "speed_agility"
  else d

/-- `validate_session_type(client, files, claimed_type)` (lines 60–166),
with the vision call modelled as an `Except` oracle: returns
`(is_valid, detected_type, confidence)`.  Any exception inside the `try`
block — a failed vision call, or the `AttributeError` from
`claimed_type.lower()` when the form field is missing (`none`) — is caught
and mapped to the fail-open verdict `(True, claimed_type, "validation_error")`. -/
def validateSessionType {ε : Type} (classify : Except ε String)
    (claimed : Option String) : Bool × Option String × String :=
  match classify with
  | Except.error _ => (true, claimed, "validation_error")
  | Except.ok raw =>
    let response := pyStrip raw
    let isUncertain := pyStartsWith (pyLower response) "uncertain:"
    let detected := normalizeDetected response
    match claimed with
    | none => (true, none, "validation_error")
    | some c =>
      (detected == pyLower c, some detected,
        if isUncertain then "uncertain" else "confident")

/-- The three terminal outcomes of the classifier gate in `process_images`:
`accept` proceeds with no log line, `warn` proceeds after printing a
`[WARNING]` line, `reject` aborts with the 400 mismatch error. -/
inductive Outcome where
  | accept
  | warn
  | reject
deriving DecidableEq

/-- The `is_match_ballwork_confusion` test of `process_images` (lines 242–244). -/
def mbConfusion (claimed detected : Option String) : Bool :=
  (claimed == some "match" && detected == some "ball_work") ||
    (claimed == some "ball_work" && detected == some "match")

/-- The decision logic of `process_images` on the classifier verdict
(lines 239–266), including the `[WARNING]` printed in the `elif` branch when
the verdict is valid but uncertain. -/
def classifierDecision (claimed : Option String) (valid : Bool)
    (detected : Option String) (conf : String) : Outcome :=
  if valid = false then
    if conf = "uncertain" ∨ mbConfusion claimed detected = true then Outcome.warn
    else Outcome.reject
  else if conf = "uncertain" then Outcome.warn
  else Outcome.accept

/-! ## Date extraction (unstructured-text mode of the Normalizer)

The date regex of `extract_ball_work_data` / `extract_match_data` is
`((january|…|december)\s+\d{1,2},\s*\d{4})` with `re.search` and
`re.IGNORECASE`; `findDate` is its direct translation (the character classes
`\s`, `\d` and the literal `,` are pairwise disjoint, so the greedy
quantifiers never need backtracking and maximal-munch scanning is exact). -/

/-- The twelve month names, paired with their numbers. -/
def monthNames : List (String × Nat) := [
  ("january", 1), ("february", 2), ("march", 3), ("april", 4),
  ("may", 5), ("june", 6), ("july", 7), ("august", 8),
  ("september", 9), ("october", 10), ("november", 11), ("december", 12)]

/-- Case-insensitive month-name prefix of a character list: the month number
and the length of the name (no month name is a prefix of another, so the
alternation order is irrelevant). -/
def monthPrefix? (cs : List Char) : Option (Nat × Nat) :=
  (monthNames.find? (fun m => m.1.toList.isPrefixOf (cs.map Char.toLower))).map
    (fun m => (m.2, m.1.toList.length))

/-- Try to match the date pattern anchored at the head of `cs`; on success,
the length of the matched text. -/
def matchDateAt (cs : List Char) : Option Nat :=
  match monthPrefix? cs with
  | none => none
  | some ml =>
    let after := cs.drop ml.2
    let ws := after.takeWhile isPyWs
    if ws.isEmpty then none
    else
      let afterWs := after.drop ws.length
      let ds := afterWs.takeWhile Char.isDigit
      if ds.length = 0 ∨ ds.length ≥ 3 then none
      else
        match afterWs.drop ds.length with
        | c :: rest2 =>
          if c = ',' then
            let ws2 := rest2.takeWhile isPyWs
            let ys := (rest2.drop ws2.length).takeWhile Char.isDigit
            if ys.length < 4 then none
            else some (ml.2 + ws.length + ds.length + 1 + ws2.length + 4)
          else none
        | [] => none

/-- Leftmost match of the date pattern (the `re.search` semantics). -/
def findDateAux : List Char → Option (List Char)
  | [] => none
  | c :: rest =>
    match matchDateAt (c :: rest) with
    | some n => some ((c :: rest).take n)
    | none => findDateAux rest

/-- `re.search(date_pattern, text).group(1)`. -/
def findDate (text : String) : Option String :=
  (findDateAux text.toList).map String.mk

/-- Gregorian leap-year rule (as used by `datetime`). -/
def isLeapYear (y : Nat) : Bool :=
  y % 4 = 0 && (y % 100 ≠ 0 || y % 400 = 0)

/-- Days in a month. -/
def daysInMonth (m y : Nat) : Nat :=
  if m = 2 then (if isLeapYear y then 29 else 28)
  else if m = 4 ∨ m = 6 ∨ m = 9 ∨ m = 11 then 30
  else 31

/-- `datetime.strptime(s, "%B %d, %Y")` as `(year, month, day)`:
full month name (case-insensitive), whitespace, a 1–2 digit day in `1..31`,
a comma, whitespace, exactly four year digits, end of string; then the
calendar checks (`year ≥ 1`, day within the month) that make
`"February 30, 2024"` a `ValueError`.  `none` models the `ValueError`. -/
def strptimeBD (s : String) : Option (Nat × Nat × Nat) :=
  let cs := s.toList
  match monthPrefix? cs with
  | none => none
  | some ml =>
    let after := cs.drop ml.2
    let ws := after.takeWhile isPyWs
    if ws.isEmpty then none
    else
      let afterWs := after.drop ws.length
      let ds := afterWs.takeWhile Char.isDigit
      if ds.length = 0 ∨ ds.length ≥ 3 then none
      else
        let day := natOfDigits ds
        if day = 0 ∨ day > 31 then none
        else
          match afterWs.drop ds.length with
          | c :: rest2 =>
            if c = ',' then
              let ws2 := rest2.takeWhile isPyWs
              if ws2.isEmpty then none
              else
                let rest3 := rest2.drop ws2.length
                let ys := rest3.takeWhile Char.isDigit
                if ys.length = 4 ∧ rest3.length = 4 then
                  let y := natOfDigits ys
                  if y = 0 then none
                  else if day > daysInMonth ml.1 y then none
                  else some (y, ml.1, day)
                else none
            else none
          | [] => none

/-- Zero-pad a number to two digits. -/
def pad2 (n : Nat) : String :=
  if n < 10 then "0" ++ toString n else toString n

/-- Zero-pad a number to four digits (`datetime.strftime("%Y")`). -/
def pad4 (n : Nat) : String :=
  if n < 10 then "000" ++ toString n
  else if n < 100 then "00" ++ toString n
  else if n < 1000 then "0" ++ toString n
  else toString n

/-- The date field computation shared by `extract_ball_work_data`,
`extract_speed_agility_data` and `extract_match_data` (lines 495–507,
605–617, 677–689): search for the textual date, `strptime` it, and render
`"%Y-%m-%d"`; a missing match or a `ValueError` yields `None`. -/
def extractDate (text : String) : Option String :=
  match findDate text with
  | none => none
  | some s =>
    match strptimeBD s with
    | none => none
    | some ymd => some (pad4 ymd.1 ++ "-" ++ pad2 ymd.2.1 ++ "-" ++ pad2 ymd.2.2)

/-! ## Extraction Orchestrator (`process_images`) -/

/-- An uploaded image: filename (used only for the media-type tag) and size
in bytes (the content itself is never inspected by the core). -/
structure UploadedFile where
  filename : String
  size : Nat
deriving DecidableEq

/-- The three fixed extraction instruction templates (lines 269–385). -/
inductive ExtractionPrompt where
  | matchSession
  | ballWork
  | speedAgility
deriving DecidableEq

/-- The content of one outbound extraction call: all uploaded images plus
one instruction template. -/
abbrev Content := List UploadedFile × ExtractionPrompt

/-- Failure modes surfaced by the vision collaborator, as distinguished by
the outer exception handler (lines 465–480). -/
inductive ApiError where
  | auth
  | rateLimited
  | other (msg : String)
deriving DecidableEq

/-- The primary (higher-capability) model identifier. -/
def sonnetModel : String := "claude-3-5-sonnet-20241022"

/-- The fallback (cheaper) model identifier. -/
def haikuModel : String := "claude-3-haiku-20240307"

/-- The tiered model invocation of `process_images` (lines 412–427):
try the primary model; on any error retry exactly once with the fallback
model on the identical content.  The second component is the trace of
outbound calls actually made, in order. -/
def tieredExtraction (respond : String → Content → Except ApiError String)
    (c : Content) : Except ApiError String × List (String × Content) :=
  match respond sonnetModel c with
  | Except.ok r => (Except.ok r, [(sonnetModel, c)])
  | Except.error _ => (respond haikuModel c, [(sonnetModel, c), (haikuModel, c)])

/-- HTTP-level result of `/process`: a success envelope (canonical record +
raw model text) or an error message with its status code. -/
inductive HttpResult where
  | success (data : JTree) (ocr : String)
  | failure (status : Nat) (msg : String)

/-- Observable outbound calls of one request. -/
inductive Event where
  | classifyCall (sample : List UploadedFile)
  | modelCall (model : String) (c : Content)
deriving DecidableEq

/-- The classification sample (lines 73–76): the first image, plus the
middle image when more than three were uploaded. -/
def sampleFiles (files : List UploadedFile) : List UploadedFile :=
  files.take 1 ++
    (if files.length > 3 then (files.drop (files.length / 2)).take 1 else [])

/-- `MAX_FILE_SIZE` (10 MB). -/
def MAX_FILE_SIZE : Nat := 10 * 1024 * 1024

/-- `MAX_FILES`. -/
def MAX_FILES : Nat := 20

/-- The `session_type_limits` dict (lines 188–192): per-type image-count
ceilings; a session type outside the dict (including `match` and any
unrecognized value) has no per-type ceiling. -/
def sessionTypeLimit (st : Option String) : Option Nat :=
  match st with
  | none => none
  | some s =>
    if s = "speed_agility" then some 2
    else if s = "ball_work" then some 4
    else none

/-- `session_type.replace("_", " ").title()` used in error messages. -/
def displayName (s : String) : String :=
  pyTitle (pyReplace s "_" " ")

/-- The per-type ceiling error message (lines 198–206). -/
def limitExceededMsg (s : String) (m n : Nat) : String :=
  displayName s ++ " sessions should have at most " ++ toString m ++
    " images. You uploaded " ++ toString n ++ ". Please check your session type selection."

/-- The mismatch error message (lines 256–259). -/
def mismatchMsg (detected claimed : String) : String :=
  "Session type mismatch: Images appear to be '" ++ displayName detected ++
    "' but you selected '" ++ displayName claimed ++ "'. Please verify your selection."

/-- File-size validation (lines 209–219): the first oversized file aborts
with a 400 error. -/
def checkSizes (files : List UploadedFile) : Option (Nat × String) :=
  (files.find? (fun f => f.size > MAX_FILE_SIZE)).map
    (fun f => (400, "File " ++ f.filename ++ " exceeds 10.0MB limit"))

/-- Pre-call input validation (lines 180–219): presence, global count,
per-type count, sizes; `some (status, msg)` is an immediate error reply. -/
def checkFiles (st : Option String) (files : List UploadedFile) : Option (Nat × String) :=
  if files.isEmpty then some (400, "No images uploaded")
  else if files.length > MAX_FILES then
    some (400, "Too many files. Maximum 20 allowed")
  else
    match st with
    | none => checkSizes files
    | some s =>
      match sessionTypeLimit (some s) with
      | none => checkSizes files
      | some m =>
        if files.length > m then
          some (400, limitExceededMsg s m files.length)
        else checkSizes files

/-- API-key sourcing (lines 221–231): server mode uses the configured key,
any other mode requires a non-empty form key. -/
def getKey (mode serverKey : String) (formKey : Option String) :
    Except (Nat × String) String :=
  if mode = "server" then
    if serverKey = "" then Except.error (500, "Server configuration error")
    else Except.ok serverKey
  else
    match formKey with
    | none => Except.error (400, "API key is required")
    | some k =>
      if k = "" then Except.error (400, "API key is required")
      else Except.ok k

/-- Instruction-template selection (lines 269–385): `match` and `ball_work`
get their own template, everything else — including an unrecognized or
missing session type — falls through to the speed & agility template. -/
def extractionPrompt (st : Option String) : ExtractionPrompt :=
  match st with
  | none => ExtractionPrompt.speedAgility
  | some s =>
    if s = "match" then ExtractionPrompt.matchSession
    else if s = "ball_work" then ExtractionPrompt.ballWork
    else ExtractionPrompt.speedAgility

/-- Decoding of a located JSON span (lines 440–449): `json.loads` it; a
decode failure is the 500 "Invalid JSON response" error; a successful parse
of the span (which starts with `\x7b`, hence is always an object) yields
the field list handed to the formatter. -/
def spanResult (s : String) : Except (Nat × String) (List (String × Json)) :=
  match jsonParse s with
  | none => Except.error (500, "Invalid JSON response")
  | some (Json.obj flds) => Except.ok flds
  | some _ => Except.ok []

/-- See `spanResult` for the treatment of the located substring; this
function performs the span location itself (`find`/`rfind`, lines 437–445):
a span exists iff a `\x7b` occurs and the last `\x7d` is strictly after the
first `\x7b` (in the source: `json_start >= 0 and json_end > json_start`,
with `json_end = rfind + 1`, so an absent `\x7d` gives `json_end = 0`). -/
def parseJsonSpan (text : String) : Except (Nat × String) (List (String × Json)) :=
  match pyFind text lbrace with
  | none => Except.error (500, "Failed to extract JSON from response")
  | some i =>
    let jEnd : Nat :=
      match pyRfind text rbrace with
      | none => 0
      | some j => j + 1
    if i < jEnd then spanResult (pySlice text i jEnd)
    else Except.error (500, "Failed to extract JSON from response")

/-- Result formatting dispatch (lines 451–460). -/
def formatResult (st : Option String) (flds : List (String × Json)) : Option JTree :=
  match st with
  | none => none
  | some s =>
    if s = "ball_work" then some (format_ball_work_result flds)
    else if s = "speed_agility" then some (format_speed_agility_result flds)
    else if s = "match" then some (format_match_result flds)
    else none

/-- The post-input-validation part of `process_images`: classification gate,
tiered extraction, JSON parsing, formatting, envelope construction, and the
outer exception handler for the extraction call. -/
def processValidated (mode : String) (dev : Bool)
    (classify : Except Unit String)
    (respond : String → Content → Except ApiError String)
    (st : Option String) (files : List UploadedFile) : HttpResult × List Event :=
  let events0 := [Event.classifyCall (sampleFiles files)]
  let v := validateSessionType classify st
  match classifierDecision st v.1 v.2.1 v.2.2 with
  | Outcome.reject =>
    match v.2.1, st with
    | some d, some c => (HttpResult.failure 400 (mismatchMsg d c), events0)
    | _, _ =>
      -- unreachable: a rejecting verdict always carries both strings;
      -- Python would raise here and the outer handler would answer 500
      (HttpResult.failure 500 "Processing error occurred", events0)
  | _ =>
    let prompt := extractionPrompt st
    let rc := tieredExtraction respond (files, prompt)
    let events := events0 ++ rc.2.map (fun mc => Event.modelCall mc.1 mc.2)
    let result : HttpResult :=
      match rc.1 with
      | Except.error ApiError.auth =>
        HttpResult.failure 401
          (if mode = "user" then "Invalid API key" else "Server API key invalid")
      | Except.error ApiError.rateLimited =>
        HttpResult.failure 429 "Rate limit exceeded. Try again later."
      | Except.error (ApiError.other m) =>
        HttpResult.failure 500 (if dev then m else "Processing error occurred")
      | Except.ok text =>
        match parseJsonSpan text with
        | Except.error sm => HttpResult.failure sm.1 sm.2
        | Except.ok flds =>
          match formatResult st flds with
          | some data => HttpResult.success data text
          | none => HttpResult.failure 400 "Invalid session type"
    (result, events)

/-- `/process` (lines 169–480), end to end: input validation, key sourcing,
then the validated pipeline.  `mode`/`serverKey`/`dev` are the
`API_KEY_MODE`, `ANTHROPIC_API_KEY` and `FLASK_ENV == "development"`
configuration; `classify` and `respond` are the two outbound-call oracles;
`st`, `files`, `formKey` are the request fields. -/
def processImages (mode serverKey : String) (dev : Bool)
    (classify : Except Unit String)
    (respond : String → Content → Except ApiError String)
    (st : Option String) (files : List UploadedFile) (formKey : Option String) :
    HttpResult × List Event :=
  match checkFiles st files with
  | some sm => (HttpResult.failure sm.1 sm.2, [])
  | none =>
    match getKey mode serverKey formKey with
    | Except.error sm => (HttpResult.failure sm.1 sm.2, [])
    | Except.ok _ => processValidated mode dev classify respond st files

/-- `i` is the index of the first occurrence of `c` in `s`. -/
def isFirstIdx (s : String) (c : Char) (i : Nat) : Prop :=
  charAt? s i = some c ∧ ∀ k, k < i → charAt? s k ≠ some c

/-- `j` is the index of the last occurrence of `c` in `s`. -/
def isLastIdx (s : String) (c : Char) (j : Nat) : Prop :=
  charAt? s j = some c ∧ ∀ k, j < k → charAt? s k ≠ some c

/-! ## Helper lemmas -/

/-- `pyFindAux` finds exactly the first occurrence. -/
theorem pyFindAux_of_first {c : Char} {l : List Char} {i : Nat}
    (h1 : l.get? i = some c) (h2 : ∀ k, k < i → l.get? k ≠ some c) :
    pyFindAux c l = some i := by
  induction l generalizing i with
  | nil => simp at h1
  | cons a rest ih =>
    cases i with
    | zero =>
      simp only [List.get?_cons_zero, Option.some.injEq] at h1
      simp [pyFindAux, h1]
    | succ j =>
      have ha : ¬ a = c := by
        intro h
        exact h2 0 (Nat.succ_pos j) (by simp [h])
      simp only [List.get?_cons_succ] at h1
      have hrest : pyFindAux c rest = some j := by
        refine ih h1 (fun k hk => ?_)
        have := h2 (k + 1) (by omega)
        simpa using this
      simp [pyFindAux, ha, hrest]

/-- `pyFindAux` returns `none` when the character does not occur. -/
theorem pyFindAux_of_absent {c : Char} {l : List Char}
    (h : ∀ k, l.get? k ≠ some c) : pyFindAux c l = none := by
  induction l with
  | nil => rfl
  | cons a rest ih =>
    have ha : ¬ a = c := by
      intro hh
      exact h 0 (by simp [hh])
    have hrest : pyFindAux c rest = none := by
      refine ih (fun k => ?_)
      have := h (k + 1)
      simpa using this
    simp [pyFindAux, ha, hrest]

/-- `pyFind` computes the first index of a character. -/
theorem pyFind_of_first {s : String} {c : Char} {i : Nat}
    (h1 : charAt? s i = some c) (h2 : ∀ k, k < i → charAt? s k ≠ some c) :
    pyFind s c = some i :=
  pyFindAux_of_first h1 h2

/-- `pyRfind` computes the last index of a character. -/
theorem pyRfind_of_last {s : String} {c : Char} {j : Nat}
    (h1 : charAt? s j = some c) (h2 : ∀ k, j < k → charAt? s k ≠ some c) :
    pyRfind s c = some j := by
  have hjlen : j < s.toList.length := by
    rcases List.get?_eq_some.mp h1 with ⟨hlt, _⟩
    exact hlt
  have hrev : pyFindAux c s.toList.reverse = some (s.toList.length - 1 - j) := by
    refine pyFindAux_of_first ?_ ?_
    · have hidx : s.toList.length - 1 - j < s.toList.length := by omega
      rw [List.get?_eq_getElem?,
        List.getElem?_reverse (by simpa using hidx)]
      have : s.toList.length - 1 - (s.toList.length - 1 - j) = j := by omega
      rw [this, ← List.get?_eq_getElem?]
      exact h1
    · intro k hk
      by_cases hklen : k < s.toList.length
      · rw [List.get?_eq_getElem?, List.getElem?_reverse (by simpa using hklen),
          ← List.get?_eq_getElem?]
        exact h2 _ (by omega)
      · rw [List.get?_eq_getElem?, List.getElem?_eq_none (by simp; omega)]
        simp
  simp only [pyRfind, hrev]
  congr 1
  omega

/-- `pyFind` returns `none` when the character does not occur. -/
theorem pyFind_of_absent {s : String} {c : Char}
    (h : ∀ k, charAt? s k ≠ some c) : pyFind s c = none :=
  pyFindAux_of_absent h

/-- `pyRfind` returns `none` when the character does not occur. -/
theorem pyRfind_of_absent {s : String} {c : Char}
    (h : ∀ k, charAt? s k ≠ some c) : pyRfind s c = none := by
  have hrev : pyFindAux c s.toList.reverse = none := by
    refine pyFindAux_of_absent (fun k => ?_)
    by_cases hklen : k < s.toList.length
    · rw [List.get?_eq_getElem?, List.getElem?_reverse (by simpa using hklen),
        ← List.get?_eq_getElem?]
      exact h _
    · have hle : s.toList.reverse.length ≤ k := by
        rw [List.length_reverse]; omega
      rw [List.get?_eq_getElem?, List.getElem?_eq_none hle]
      simp
  simp only [pyRfind]
  rw [hrev]

/-- Reduce an unbounded absence condition to the (decidable) bounded one. -/
theorem forall_charAt?_ne {s : String} {c : Char}
    (h : ∀ k, k < s.toList.length → charAt? s k ≠ some c) :
    ∀ k, charAt? s k ≠ some c := by
  intro k
  by_cases hk : k < s.toList.length
  · exact h k hk
  · simp only [charAt?]
    rw [List.get?_eq_getElem?, List.getElem?_eq_none (by omega)]
    simp

/-- Reduce an unbounded last-occurrence condition to the bounded one. -/
theorem forall_gt_charAt?_ne {s : String} {c : Char} {j : Nat}
    (h : ∀ k, k < s.toList.length → j < k → charAt? s k ≠ some c) :
    ∀ k, j < k → charAt? s k ≠ some c := by
  intro k hjk
  by_cases hk : k < s.toList.length
  · exact h k hk hjk
  · simp only [charAt?]
    rw [List.get?_eq_getElem?, List.getElem?_eq_none (by omega)]
    simp

/-! ## Claim theorems -/

/-- C1: for each of the three session types, the normalizer
(`format_match_result`, `format_ball_work_result`,
`format_speed_agility_result`) returns a record whose sections and field
names are exactly the declared schema for that type, for every input
object; every canonical field is populated by `data.get(source_key)`
(`training_type` of a Match is the constant `"Match"`), and a key that is
missing from the input yields the absent value `Json.null`, never an
omitted field. -/
theorem C1_normalizer_fixed_shape :
    ∀ d : List (String × Json),
      shapeToDepth 8 (format_match_result d) = matchSchema ∧
      shapeToDepth 8 (format_ball_work_result d) = ballWorkSchema ∧
      shapeToDepth 8 (format_speed_agility_result d) = speedAgilitySchema ∧
      matchFieldMap.map (fun pk => lookupPath pk.1 (format_match_result d)) =
        matchFieldMap.map (fun pk => some (pyGet d pk.2)) ∧
      ballWorkFieldMap.map (fun pk => lookupPath pk.1 (format_ball_work_result d)) =
        ballWorkFieldMap.map (fun pk => some (pyGet d pk.2)) ∧
      speedAgilityFieldMap.map (fun pk => lookupPath pk.1 (format_speed_agility_result d)) =
        speedAgilityFieldMap.map (fun pk => some (pyGet d pk.2)) ∧
      lookupPath ["session", "training_type"] (format_match_result d) =
        some (Json.str "Match") ∧
      (∀ k, (d.all fun p => !(p.1 == k)) = true → pyGet d k = Json.null) := by
  intro d
  refine ⟨rfl, rfl, rfl, rfl, rfl, rfl, rfl, ?_⟩
  intro k h
  have hnil : d.filter (fun p => p.1 == k) = [] := by
    refine List.filter_eq_nil_iff.mpr (fun p hp => ?_)
    have := List.all_eq_true.mp h p hp
    simpa using this
  simp [pyGet, hnil]

/-- C1 witness: a concrete one-field input; the field whose source key is
missing is the absent value. -/
theorem C1_normalizer_fixed_shape_witness :
    pyGet [("goals", Json.intNum 2)] "date" = Json.null :=
  (C1_normalizer_fixed_shape [("goals", Json.intNum 2)]).2.2.2.2.2.2.2 "date" (by decide)

/-- C2 (amended): the decision of `process_images` on the classifier
verdict.  With `is_valid = false`: uncertain confidence, or a
match/ball-work cross pair at any confidence, proceeds with a warning;
confident with any other mismatch rejects.  With `is_valid = true`: the
request proceeds, silently when the confidence is not `"uncertain"`, but
with a warning logged when it is (the `elif` branch of lines 263–266). -/
theorem C2_decision_table :
    ∀ (claimed detected : Option String) (conf : String),
      (classifierDecision claimed false detected "uncertain" = Outcome.warn) ∧
      (mbConfusion claimed detected = true →
        classifierDecision claimed false detected conf = Outcome.warn) ∧
      (conf = "confident" → mbConfusion claimed detected = false →
        classifierDecision claimed false detected conf = Outcome.reject) ∧
      (conf ≠ "uncertain" → classifierDecision claimed true detected conf = Outcome.accept) ∧
      (classifierDecision claimed true detected "uncertain" = Outcome.warn) := by
  intro claimed detected conf
  refine ⟨?_, ?_, ?_, ?_, ?_⟩ <;> simp only [classifierDecision]
  · simp
  · intro h; simp [h]
  · intro hc h
    subst hc
    simp [h, show ¬ ("confident" : String) = "uncertain" by decide]
  · intro h; simp [h]
  · simp

/-- C2 counterexample: a reachable verdict (`"uncertain: Match"` response
with claimed type `match`) is valid with uncertain confidence, and the code
then logs a warning and proceeds (warn-and-proceed), not a silent accept as
the claim states. -/
theorem C2_counterexample :
    validateSessionType (Except.ok "uncertain: Match" : Except Unit String) (some "match") =
      (true, some "match", "uncertain") ∧
    classifierDecision (some "match") true (some "match") "uncertain" = Outcome.warn ∧
    Outcome.warn ≠ Outcome.accept := by
  refine ⟨by decide, by decide, by decide⟩

/-- C2 witness: concrete instances of the decision-table rows — a confident
match/ball-work cross pair warns, a confident speed-vs-match mismatch
rejects, a confident valid verdict accepts silently. -/
theorem C2_decision_table_witness :
    classifierDecision (some "match") false (some "ball_work") "confident" = Outcome.warn ∧
    classifierDecision (some "speed_agility") false (some "match") "confident" =
      Outcome.reject ∧
    classifierDecision (some "match") true (some "match") "confident" = Outcome.accept :=
  ⟨(C2_decision_table (some "match") (some "ball_work") "confident").2.1 (by decide),
   (C2_decision_table (some "speed_agility") (some "match") "confident").2.2.1 rfl (by decide),
   (C2_decision_table (some "match") (some "match") "confident").2.2.2.1 (by decide)⟩

/-- C3: any exception during the classification call (modelled by the
`Except.error` oracle outcome, of any error type) is caught inside
`validate_session_type` and produces the fail-open verdict
`(True, claimed_type, "validation_error")`, and that verdict always drives
the orchestrator's decision to a silent accept, so classification failures
never abort or block the main extraction. -/
theorem C3_classification_fail_open :
    ∀ (ε : Type) (e : ε) (claimed : Option String),
      validateSessionType (Except.error e) claimed = (true, claimed, "validation_error") ∧
      (∀ detected, classifierDecision claimed true detected "validation_error" =
        Outcome.accept) := by
  intro ε e claimed
  refine ⟨rfl, fun detected => ?_⟩
  simp [classifierDecision, show ¬ ("validation_error" : String) = "uncertain" by decide]

/-- C5: `extract_number` over the `re.search` oracle: no match yields
`None` without raising; a matched group containing a dot is converted with
`float(...)` (a rational here), one without a dot with `int(...)`; a failed
conversion yields `None`; and the result is determined by the oracle's
behaviour on the inputs (determinism). -/
theorem C5_extract_number_total :
    ∀ (search : SearchOracle) (text pat : String),
      (search pat text = none → extract_number search text pat = none) ∧
      (∀ g, search pat text = some g → g.toList.contains '.' = true →
        extract_number search text pat = (pyFloatOfString? g).map PyNum.float) ∧
      (∀ g, search pat text = some g → g.toList.contains '.' = false →
        extract_number search text pat = (pyIntOfString? g).map PyNum.int) ∧
      (∀ g, search pat text = some g → g.toList.contains '.' = true →
        pyFloatOfString? g = none → extract_number search text pat = none) ∧
      (∀ g, search pat text = some g → g.toList.contains '.' = false →
        pyIntOfString? g = none → extract_number search text pat = none) ∧
      (∀ search2 : SearchOracle, (∀ q u, search q u = search2 q u) →
        extract_number search text pat = extract_number search2 text pat) := by
  intro search text pat
  refine ⟨?_, ?_, ?_, ?_, ?_, ?_⟩ <;> simp only [extract_number]
  · intro h; rw [h]
  · intro g h hdot
    rw [h]; dsimp only; rw [if_pos hdot]
  · intro g h hdot
    rw [h]; dsimp only
    rw [if_neg (fun hh => Bool.false_ne_true (hdot ▸ hh))]
  · intro g h hdot hf
    rw [h]; dsimp only; rw [if_pos hdot, hf]
    rfl
  · intro g h hdot hi
    rw [h]; dsimp only
    rw [if_neg (fun hh => Bool.false_ne_true (hdot ▸ hh)), hi]
    rfl
  · intro s2 hs; rw [hs]

/-- C5 witness: a matched decimal group becomes a float (`12.5 = 25/2`),
a matched integral group becomes an int, a non-numeric group and a
non-match become `None`. -/
theorem C5_extract_number_total_witness :
    (extract_number (fun _ _ => some "12.5") "t" "p" =
      (pyFloatOfString? "12.5").map PyNum.float ∧
      (pyFloatOfString? "12.5").map PyNum.float = some (PyNum.float (mkRat 25 2))) ∧
    (extract_number (fun _ _ => some "42") "t" "p" =
      (pyIntOfString? "42").map PyNum.int ∧
      (pyIntOfString? "42").map PyNum.int = some (PyNum.int 42)) ∧
    extract_number (fun _ _ => some "1.2.3") "t" "p" = none ∧
    extract_number (fun _ _ => none) "t" "p" = none :=
  ⟨⟨(C5_extract_number_total (fun _ _ => some "12.5") "t" "p").2.1 "12.5" rfl (by decide),
    by decide⟩,
   ⟨(C5_extract_number_total (fun _ _ => some "42") "t" "p").2.2.1 "42" rfl (by decide),
    by decide⟩,
   (C5_extract_number_total (fun _ _ => some "1.2.3") "t" "p").2.2.2.1 "1.2.3" rfl
     (by decide) (by decide),
   (C5_extract_number_total (fun _ _ => none) "t" "p").1 rfl⟩

/-- C6 (amended): the label normalization of `validate_session_type`, with
the `elif` precedence: a response containing "match" is `match`; otherwise
one containing "ball work" is `ball_work`; otherwise one containing both
"speed" and "agility" is `speed_agility`; a response containing none of
these keeps the raw lowercased (uncertain-prefix-stripped, trimmed)
response text as the detected type — there is no fixed `Unknown` value. -/
theorem C6_label_normalization :
    ∀ response : String,
      (strContains (rawDetected response) "match" = true →
        normalizeDetected response = "match") ∧
      (strContains (rawDetected response) "match" = false →
        strContains (rawDetected response) "ball work" = true →
        normalizeDetected response = "ball_work") ∧
      (strContains (rawDetected response) "match" = false →
        strContains (rawDetected response) "ball work" = false →
        strContains (rawDetected response) "speed" = true →
        strContains (rawDetected response) "agility" = true →
        normalizeDetected response = "speed_agility") ∧
      (strContains (rawDetected response) "match" = false →
        strContains (rawDetected response) "ball work" = false →
        (strContains (rawDetected response) "speed" = false ∨
          strContains (rawDetected response) "agility" = false) →
        normalizeDetected response = rawDetected response) := by
  intro r
  refine ⟨?_, ?_, ?_, ?_⟩ <;> simp only [normalizeDetected]
  · intro h; simp [h]
  · intro h1 h2; simp [h1, h2]
  · intro h1 h2 h3 h4; simp [h1, h2, h3, h4]
  · intro h1 h2 h3
    rcases h3 with h3 | h3 <;> simp [h1, h2, h3]

/-- C6 counterexample: two responses that match none of the three labels
yield two different detected types — the raw response text itself — so the
detected type is not a fixed `Unknown` value. -/
theorem C6_counterexample :
    normalizeDetected "basketball" = "basketball" ∧
    normalizeDetected "tennis" = "tennis" ∧
    ("basketball" : String) ≠ "tennis" ∧ ("basketball" : String) ≠ "unknown" := by
  refine ⟨by decide, by decide, by decide, by decide⟩

/-- C6 witness: the three substring rules at concrete responses. -/
theorem C6_label_normalization_witness :
    normalizeDetected "Match" = "match" ∧
    normalizeDetected "Ball Work" = "ball_work" ∧
    normalizeDetected "Speed and Agility" = "speed_agility" :=
  ⟨(C6_label_normalization "Match").1 (by decide),
   (C6_label_normalization "Ball Work").2.1 (by decide) (by decide),
   (C6_label_normalization "Speed and Agility").2.2.1 (by decide) (by decide) (by decide)
     (by decide)⟩

/-- C7 (amended): `extract_value` returns the captured group passed through
Python `str.capitalize()` — only the first character uppercased and the
rest lowercased, not the title-cased form — and the caller-supplied default
(possibly absent) when the pattern does not match; it never raises. -/
theorem C7_extract_value :
    ∀ (search : SearchOracle) (text pat : String) (dflt : Option String),
      (∀ g, search pat text = some g →
        extract_value search text pat dflt = some (pyCapitalize g)) ∧
      (search pat text = none → extract_value search text pat dflt = dflt) := by
  intro search text pat dflt
  refine ⟨?_, ?_⟩ <;> simp only [extract_value]
  · intro g h; rw [h]
  · intro h; rw [h]

/-- C7 counterexample: for a two-word captured group the returned value is
the capitalized form `"Ab cd"`, which differs from the title-cased form
`"Ab Cd"` required by the claim. -/
theorem C7_counterexample :
    extract_value (fun _ _ => some "ab cd") "t" "p" none = some "Ab cd" ∧
    pyTitle "ab cd" = "Ab Cd" ∧
    (some "Ab cd" : Option String) ≠ some "Ab Cd" := by
  refine ⟨rfl, rfl, by decide⟩

/-- C7 witness: a matched single word is capitalized; a non-match returns
the default. -/
theorem C7_extract_value_witness :
    (extract_value (fun _ _ => some "technical") "t" "p" (some "Moderate") =
      some (pyCapitalize "technical") ∧ pyCapitalize "technical" = "Technical") ∧
    extract_value (fun _ _ => none) "t" "p" (some "Moderate") = some "Moderate" :=
  ⟨⟨(C7_extract_value (fun _ _ => some "technical") "t" "p" (some "Moderate")).1
      "technical" rfl, by decide⟩,
   (C7_extract_value (fun _ _ => none) "t" "p" (some "Moderate")).2 rfl⟩

/-- C8: date normalization in the unstructured-text extractors:
`"March 5, 2024"` becomes `"2024-03-05"`; a text with no date match leaves
the field absent; a matched date string that `strptime` rejects (such as
`"february 30, 2024"`, day out of range) also leaves the field absent —
in every case without an exception (the function is total by construction). -/
theorem C8_date_normalization :
    (extractDate "March 5, 2024" = some "2024-03-05") ∧
    (extractDate "february 30, 2024" = none) ∧
    (∀ t, findDate t = none → extractDate t = none) ∧
    (∀ t s, findDate t = some s → strptimeBD s = none → extractDate t = none) := by
  refine ⟨by decide, by decide, ?_, ?_⟩
  · intro t h
    simp [extractDate, h]
  · intro t s h hs
    simp [extractDate, h, hs]

/-- C8 witness: a date-free text and an unparseable date both yield an
absent date. -/
theorem C8_date_normalization_witness :
    extractDate "no date in this text" = none ∧
    extractDate "played on february 30, 2024 evening" = none :=
  ⟨C8_date_normalization.2.2.1 "no date in this text" (by decide),
   C8_date_normalization.2.2.2 "played on february 30, 2024 evening"
     "february 30, 2024" (by decide) (by decide)⟩

/-- C9: the tiered model invocation: a primary (Sonnet) success makes
exactly one call and returns that result; a primary error makes exactly one
further call to the fallback (Haiku) with the identical content, whose
result — success or error — is returned as is (so a second failure
propagates and no further retry happens); and a fallback success produces
the very same result value as a primary success with the same response
(the envelope does not reveal the fallback). -/
theorem C9_model_tier_fallback :
    ∀ (respond : String → Content → Except ApiError String) (c : Content),
      (∀ r, respond sonnetModel c = Except.ok r →
        tieredExtraction respond c = (Except.ok r, [(sonnetModel, c)])) ∧
      (∀ e, respond sonnetModel c = Except.error e →
        tieredExtraction respond c =
          (respond haikuModel c, [(sonnetModel, c), (haikuModel, c)])) ∧
      (∀ e r, respond sonnetModel c = Except.error e →
        respond haikuModel c = Except.ok r →
        (tieredExtraction respond c).1 =
          (tieredExtraction (fun _ _ => Except.ok r) c).1) := by
  intro respond c
  refine ⟨?_, ?_, ?_⟩
  · intro r h
    simp [tieredExtraction, h]
  · intro e h
    simp [tieredExtraction, h]
  · intro e r h1 h2
    simp [tieredExtraction, h1, h2]

/-- C9 witness: concrete oracles for the primary-success and the
primary-failure/fallback-success scenarios. -/
theorem C9_model_tier_fallback_witness :
    (tieredExtraction (fun _ _ => Except.ok "primary") ([], ExtractionPrompt.matchSession) =
      (Except.ok "primary", [(sonnetModel, ([], ExtractionPrompt.matchSession))])) ∧
    (tieredExtraction
        (fun m _ => if m = sonnetModel then Except.error ApiError.rateLimited
          else Except.ok "fallback")
        ([], ExtractionPrompt.matchSession) =
      (Except.ok "fallback",
        [(sonnetModel, ([], ExtractionPrompt.matchSession)),
         (haikuModel, ([], ExtractionPrompt.matchSession))])) := by
  constructor
  · exact (C9_model_tier_fallback (fun _ _ => Except.ok "primary")
      ([], ExtractionPrompt.matchSession)).1 "primary" rfl
  · have h := (C9_model_tier_fallback
      (fun m _ => if m = sonnetModel then Except.error ApiError.rateLimited
        else Except.ok "fallback")
      ([], ExtractionPrompt.matchSession)).2.1 ApiError.rateLimited rfl
    rw [h]
    rfl

/-- A success envelope can only leave `process_images` after `parseJsonSpan`
succeeded on the very response text that the envelope carries as `ocr_text`. -/
theorem processImages_success_parse {mode sk : String} {dev : Bool}
    {classify : Except Unit String}
    {respond : String → Content → Except ApiError String}
    {st : Option String} {files : List UploadedFile} {key : Option String}
    {d : JTree} {o : String}
    (h : (processImages mode sk dev classify respond st files key).1 =
      HttpResult.success d o) :
    ∃ flds, parseJsonSpan o = Except.ok flds ∧ formatResult st flds = some d := by
  unfold processImages at h
  cases hcf : checkFiles st files with
  | some sm => rw [hcf] at h; simp at h
  | none =>
    rw [hcf] at h
    cases hk : getKey mode sk key with
    | error sm => rw [hk] at h; simp at h
    | ok k0 =>
      rw [hk] at h
      dsimp only [processValidated] at h
      split at h
      · split at h <;> simp at h
      · split at h
        · simp at h
        · simp at h
        · simp at h
        · rename_i text htext
          split at h
          · simp at h
          · rename_i flds hflds
            split at h
            · rename_i data hdata
              simp only [HttpResult.success.injEq] at h
              exact ⟨flds, h.2 ▸ hflds, h.1 ▸ hdata⟩
            · simp at h

/-- C4: structured-JSON extraction: the candidate span is the substring
from the first `\x7b` to the last `\x7d` inclusive, and the result depends
only on that span (surrounding prose is ignored); a span whose `json.loads`
fails, an absent `\x7b`, an absent `\x7d`, and a last `\x7d` strictly
before the first `\x7b` all produce the malformed-response error; the
concrete spec example parses; and a success envelope can only be produced
from a response whose span parsed — no partial record accompanies an error. -/
theorem C4_json_span_location :
    (∀ text i j, isFirstIdx text lbrace i → isLastIdx text rbrace j → i ≤ j →
      parseJsonSpan text = spanResult (pySlice text i (j + 1))) ∧
    (∀ s, jsonParse s = none →
      spanResult s = Except.error (500, "Invalid JSON response")) ∧
    (∀ s flds, jsonParse s = some (Json.obj flds) → spanResult s = Except.ok flds) ∧
    (∀ text, (∀ k, charAt? text k ≠ some lbrace) →
      parseJsonSpan text = Except.error (500, "Failed to extract JSON from response")) ∧
    (∀ text, (∀ k, charAt? text k ≠ some rbrace) →
      parseJsonSpan text = Except.error (500, "Failed to extract JSON from response")) ∧
    (∀ text i j, isFirstIdx text lbrace i → isLastIdx text rbrace j → j < i →
      parseJsonSpan text = Except.error (500, "Failed to extract JSON from response")) ∧
    (parseJsonSpan "Here is the data: \x7b\"date\":\"2024-03-05\",\"goals\":2\x7d Thanks!" =
      Except.ok [("date", Json.str "2024-03-05"), ("goals", Json.intNum 2)]) ∧
    (∀ (mode sk : String) (dev : Bool) (classify : Except Unit String)
      (respond : String → Content → Except ApiError String)
      (st : Option String) (files : List UploadedFile) (key : Option String)
      (d : JTree) (o : String),
      (processImages mode sk dev classify respond st files key).1 =
        HttpResult.success d o →
      ∃ flds, parseJsonSpan o = Except.ok flds) := by
  refine ⟨?_, ?_, ?_, ?_, ?_, ?_, rfl, ?_⟩
  · intro text i j hfi hlj hij
    have h1 : pyFind text lbrace = some i := pyFind_of_first hfi.1 hfi.2
    have h2 : pyRfind text rbrace = some j := pyRfind_of_last hlj.1 hlj.2
    simp only [parseJsonSpan, h1, h2]
    rw [if_pos (by omega)]
  · intro s h
    simp [spanResult, h]
  · intro s flds h
    simp [spanResult, h]
  · intro text h
    have h1 : pyFind text lbrace = none := pyFind_of_absent h
    simp [parseJsonSpan, h1]
  · intro text h
    have h2 : pyRfind text rbrace = none := pyRfind_of_absent h
    cases h1 : pyFind text lbrace with
    | none => simp [parseJsonSpan, h1]
    | some i => simp [parseJsonSpan, h1, h2]
  · intro text i j hfi hlj hji
    have h1 : pyFind text lbrace = some i := pyFind_of_first hfi.1 hfi.2
    have h2 : pyRfind text rbrace = some j := pyRfind_of_last hlj.1 hlj.2
    simp only [parseJsonSpan, h1, h2]
    rw [if_neg (by omega)]
  · intro mode sk dev classify respond st files key d o h
    obtain ⟨flds, hp, _⟩ := processImages_success_parse h
    exact ⟨flds, hp⟩

/-- C4 witness: the span conditions discharged on concrete responses:
a prose-wrapped object parses via the located span; a response with no
braces, and one where the last `\x7d` precedes the first `\x7b`, fail. -/
theorem C4_json_span_location_witness :
    (parseJsonSpan "ab\x7b\"k\":1\x7dcd" = spanResult (pySlice "ab\x7b\"k\":1\x7dcd" 2 9) ∧
      spanResult (pySlice "ab\x7b\"k\":1\x7dcd" 2 9) = Except.ok [("k", Json.intNum 1)]) ∧
    parseJsonSpan "no braces" = Except.error (500, "Failed to extract JSON from response") ∧
    parseJsonSpan "\x7d ab \x7b" =
      Except.error (500, "Failed to extract JSON from response") := by
  refine ⟨⟨?_, ?_⟩, ?_, ?_⟩
  · exact C4_json_span_location.1 "ab\x7b\"k\":1\x7dcd" 2 8
      ⟨by decide, by decide⟩ ⟨by decide, forall_gt_charAt?_ne (by decide)⟩ (by omega)
  · rfl
  · exact C4_json_span_location.2.2.2.1 "no braces" (forall_charAt?_ne (by decide))
  · exact C4_json_span_location.2.2.2.2.2.1 "\x7d ab \x7b" 5 0
      ⟨by decide, by decide⟩ ⟨by decide, forall_gt_charAt?_ne (by decide)⟩ (by omega)

/-- No per-type image ceiling exists for a session type outside the
`session_type_limits` dict. -/
theorem sessionTypeLimit_of_invalid {st : Option String}
    (h2 : st ≠ some "ball_work") (h3 : st ≠ some "speed_agility") :
    sessionTypeLimit st = none := by
  cases st with
  | none => rfl
  | some s =>
    simp only [sessionTypeLimit]
    rw [if_neg (fun hh => h3 (by rw [hh])), if_neg (fun hh => h2 (by rw [hh]))]

/-- Any session type other than `match` and `ball_work` selects the speed &
agility instruction template. -/
theorem extractionPrompt_of_invalid {st : Option String}
    (h1 : st ≠ some "match") (h2 : st ≠ some "ball_work") :
    extractionPrompt st = ExtractionPrompt.speedAgility := by
  cases st with
  | none => rfl
  | some s =>
    simp only [extractionPrompt]
    rw [if_neg (fun hh => h1 (by rw [hh])), if_neg (fun hh => h2 (by rw [hh]))]

/-- The formatting dispatch has no branch for an unrecognized session type. -/
theorem formatResult_of_invalid {st : Option String} {flds : List (String × Json)}
    (h1 : st ≠ some "match") (h2 : st ≠ some "ball_work") (h3 : st ≠ some "speed_agility") :
    formatResult st flds = none := by
  cases st with
  | none => rfl
  | some s =>
    simp only [formatResult]
    rw [if_neg (fun hh => h2 (by rw [hh])), if_neg (fun hh => h3 (by rw [hh])),
      if_neg (fun hh => h1 (by rw [hh]))]

/-- Input validation passes whenever the files are present, within the
global cap, within sizes, and the session type has no per-type ceiling. -/
theorem checkFiles_none_of {st : Option String} {files : List UploadedFile}
    (hne : files ≠ []) (hlen : files.length ≤ MAX_FILES)
    (hsz : checkSizes files = none) (hlim : sessionTypeLimit st = none) :
    checkFiles st files = none := by
  have hie : files.isEmpty = false := by
    cases files with
    | nil => exact absurd rfl hne
    | cons a l => rfl
  simp only [checkFiles]
  rw [if_neg (by simp [hie]), if_neg (by omega)]
  cases st with
  | none => exact hsz
  | some s =>
    dsimp only
    rw [hlim]
    exact hsz

/-- The tiered invocation always calls the primary model first on the given
content. -/
theorem tieredExtraction_calls (respond : String → Content → Except ApiError String)
    (c : Content) :
    ∃ t, (tieredExtraction respond c).2 = (sonnetModel, c) :: t := by
  simp only [tieredExtraction]
  cases respond sonnetModel c with
  | ok r => exact ⟨[], rfl⟩
  | error e => exact ⟨[(haikuModel, c)], rfl⟩

/-- C10: for any `session_type` outside the three recognized values
(including a missing one), `/process` never returns a success envelope;
such a value has no per-type image ceiling, so it passes input validation
with any count up to the global cap; it is sent through the classification
call and — when not rejected as a confident mismatch — through the full
extraction call using the speed & agility instruction template; only after
extraction and JSON parsing succeed does the request fail with the 400
"Invalid session type" error. -/
theorem C10_invalid_session_type :
    ∀ (mode sk : String) (dev : Bool) (classify : Except Unit String)
      (respond : String → Content → Except ApiError String)
      (st : Option String) (files : List UploadedFile) (key : Option String),
      st ≠ some "match" → st ≠ some "ball_work" → st ≠ some "speed_agility" →
      (∀ d o, (processImages mode sk dev classify respond st files key).1 ≠
        HttpResult.success d o) ∧
      sessionTypeLimit st = none ∧
      extractionPrompt st = ExtractionPrompt.speedAgility ∧
      (files ≠ [] → files.length ≤ MAX_FILES → checkSizes files = none →
        ∀ k0, getKey mode sk key = Except.ok k0 →
        (processImages mode sk dev classify respond st files key).2.head? =
          some (Event.classifyCall (sampleFiles files)) ∧
        (classifierDecision st (validateSessionType classify st).1
            (validateSessionType classify st).2.1
            (validateSessionType classify st).2.2 ≠ Outcome.reject →
          Event.modelCall sonnetModel (files, ExtractionPrompt.speedAgility) ∈
            (processImages mode sk dev classify respond st files key).2 ∧
          (∀ text flds,
            (tieredExtraction respond (files, ExtractionPrompt.speedAgility)).1 =
              Except.ok text →
            parseJsonSpan text = Except.ok flds →
            (processImages mode sk dev classify respond st files key).1 =
              HttpResult.failure 400 "Invalid session type"))) := by
  intro mode sk dev classify respond st files key h1 h2 h3
  have hlim : sessionTypeLimit st = none := sessionTypeLimit_of_invalid h2 h3
  have hprompt : extractionPrompt st = ExtractionPrompt.speedAgility :=
    extractionPrompt_of_invalid h1 h2
  refine ⟨?_, hlim, hprompt, ?_⟩
  · intro d o hsucc
    obtain ⟨flds, _, hfmt⟩ := processImages_success_parse hsucc
    rw [formatResult_of_invalid h1 h2 h3] at hfmt
    exact Option.noConfusion hfmt
  · intro hne hlen hsz k0 hk
    have hcf : checkFiles st files = none := checkFiles_none_of hne hlen hsz hlim
    have hpi : processImages mode sk dev classify respond st files key =
        processValidated mode dev classify respond st files := by
      unfold processImages
      rw [hcf]
      dsimp only
      rw [hk]
    rw [hpi]
    constructor
    · dsimp only [processValidated]
      split
      · split <;> rfl
      · rfl
    · intro hrej
      dsimp only [processValidated]
      rw [hprompt]
      split
      · rename_i houtcome
        exact absurd houtcome hrej
      · constructor
        · obtain ⟨t, ht⟩ :=
            tieredExtraction_calls respond (files, ExtractionPrompt.speedAgility)
          rw [ht]
          simp
        · intro text flds htx hparse
          rw [htx]
          dsimp only
          rw [hparse]
          dsimp only
          rw [formatResult_of_invalid h1 h2 h3]

/-- C10 witness: a request with the unrecognized session type
`"basketball"` and five images (more than either per-type ceiling) passes
input validation, survives an uncertain classification verdict, runs the
extraction with a successfully parsed JSON response, and only then fails
with the 400 "Invalid session type" error. -/
theorem C10_invalid_session_type_witness :
    (processImages "user" "" false (Except.ok "uncertain: nothing")
      (fun _ _ => Except.ok "\x7b\"goals\": 2\x7d") (some "basketball")
      [⟨"a.png", 100⟩, ⟨"b.png", 100⟩, ⟨"c.png", 100⟩, ⟨"d.png", 100⟩, ⟨"e.png", 100⟩]
      (some "k")).1 = HttpResult.failure 400 "Invalid session type" := by
  have h := C10_invalid_session_type "user" "" false (Except.ok "uncertain: nothing")
    (fun _ _ => Except.ok "\x7b\"goals\": 2\x7d") (some "basketball")
    [⟨"a.png", 100⟩, ⟨"b.png", 100⟩, ⟨"c.png", 100⟩, ⟨"d.png", 100⟩, ⟨"e.png", 100⟩]
    (some "k") (by decide) (by decide) (by decide)
  exact ((h.2.2.2 (by decide) (by decide) rfl "k" rfl).2 (by decide)).2
    "\x7b\"goals\": 2\x7d" [("goals", Json.intNum 2)] rfl rfl
